import Mathlib

set_option maxRecDepth 40000

/-!
Shallow embedding of `py_troya_connect/terminal.py` (class `ExtraTerminal`),
the screen-scraping client for Attachmate Extra terminal sessions.

Python strings are modelled as Lean `String` (lists of characters); the
COM host (session collection, OIA status indicator, screen buffer,
`SendKeys`) is modelled by the `Host` structure; fallible methods return
`Except TErr _` where `TErr` mirrors the exception taxonomy of the module.
Wall-clock time in the polling loops is modelled in poll ticks: each loop
iteration costs exactly its `time.sleep` interval (0.1 s in
`wait_for_ready`, `interval` in `wait_for_text`), so a `timeout`-second
budget yields `10 * timeout` (resp. `timeout / interval`) iterations.
-/

/--
The exception taxonomy of the module, one constructor per raise site.
`connection`/`connectionWrap` are `ConnectionError` (code 1001);
`sessionEmpty`/`sessionNotFound` are `SessionError` (code 1002) with its
detail mapping; `busyTimeout`/`busyCheckFailed`/`busyMsg` are
`TerminalBusyError` (code 1003); `command`/`commandKeys`/`commandWrap` are
`CommandError` (code 1004).  A `Wrap` constructor models the handlers that
re-raise a caught exception `e` inside a new error whose message/details
embed `str(e)`: `connectionWrap` is `__init__`'s
`except Exception: raise ConnectionError("Unexpected error", {"error": str(e)})`
and `commandWrap` is `read_screen`'s
`except Exception: raise CommandError(f"Read screen failed: {str(e)}")`.
-/
inductive TErr where
  | connection (msg : String)
  | connectionWrap (msg : String) (inner : TErr)
  | sessionEmpty
  | sessionNotFound (name : String) (available : List String)
  | busyTimeout (timeoutSecs : Nat) (lastStatus : Option Int)
  | busyCheckFailed (elapsedTenths : Nat)
  | busyMsg (msg : String)
  | command (msg : String)
  | commandKeys (keys : String)
  | commandWrap (msg : String) (inner : TErr)
deriving DecidableEq, Repr

/-- The stable numeric `error_code` each exception subclass passes to
`ExtraTerminalError.__init__`. -/
def TErr.code : TErr → Nat
  | .connection _ => 1001
  | .connectionWrap _ _ => 1001
  | .sessionEmpty => 1002
  | .sessionNotFound _ _ => 1002
  | .busyTimeout _ _ => 1003
  | .busyCheckFailed _ => 1003
  | .busyMsg _ => 1003
  | .command _ => 1004
  | .commandKeys _ => 1004
  | .commandWrap _ _ => 1004

/-- True exactly for the two error shapes `wait_for_ready` itself can raise
(timeout, or a failing status read). -/
def TErr.isPollErr : TErr → Bool
  | .busyTimeout _ _ => true
  | .busyCheckFailed _ => true
  | _ => false

/-! ## Python string primitives -/

/-- One pass of Python `str.replace`: scan left to right, replace each
non-overlapping occurrence of `pat`, never re-scanning replacement text.
`fuel` is an upper bound on the scan length (callers pass the haystack
length); `pat` is always non-empty at every call site. -/
def replaceAux (pat rep : List Char) : Nat → List Char → List Char
  | 0, l => l
  | fuel + 1, l =>
    match l with
    | [] => []
    | c :: rest =>
      if pat.isPrefixOf l then rep ++ replaceAux pat rep fuel (List.drop pat.length l)
      else c :: replaceAux pat rep fuel rest

/-- Python `s.replace(pat, rep)`. -/
def pyReplace (s pat rep : String) : String :=
  String.mk (replaceAux pat.data rep.data s.data.length s.data)

/-- Python `s.strip()`: remove leading and trailing whitespace. -/
def pyStrip (s : String) : String :=
  String.mk (((s.data.dropWhile Char.isWhitespace).reverse.dropWhile Char.isWhitespace).reverse)

/-- Python `s.rstrip()`: remove trailing whitespace. -/
def pyRstrip (s : String) : String :=
  String.mk ((s.data.reverse.dropWhile Char.isWhitespace).reverse)

/-- Python `s.endswith(suffix)`. -/
def pyEndsWith (s suffix : String) : Bool :=
  List.isSuffixOf suffix.data s.data

/-- Python `needle in hay` for strings: substring containment. -/
def isSubstring : List Char → List Char → Bool
  | needle, [] => needle.isEmpty
  | needle, c :: rest => needle.isPrefixOf (c :: rest) || isSubstring needle rest

/-- Numeric value of a digit string. -/
def digitsVal (l : List Char) : Nat :=
  l.foldl (fun acc ch => 10 * acc + (ch.toNat - 48)) 0

/-- Python `int(s)` restricted to an optional minus sign followed by
digits (`ValueError`, i.e. `none`, otherwise).  This is the shape
`__init__` relies on to distinguish a numeric session index from a
session name. -/
def pyToIntOpt (s : String) : Option Int :=
  match s.data with
  | [] => none
  | '-' :: rest =>
    if rest ≠ [] ∧ rest.all Char.isDigit then some (-(digitsVal rest : Int)) else none
  | l => if l.all Char.isDigit then some ((digitsVal l : Int)) else none

/-- Python `list(range(0, stop, step))` for `step > 0`:
`ceil(stop / step)` indices `0, step, 2*step, ...`. -/
def pyRangeStep (stop step : Nat) : List Nat :=
  (List.range ((stop + step - 1) / step)).map (fun i => i * step)

/-! ## Command Formatter (`format_command`, `send_command`) -/

/-- The `replacements` dict of `format_command`, in insertion order
(Python dicts iterate in insertion order): all bracket-tagged tokens
first, then the bare tokens. -/
def replacements : List (String × String) :=
  [("{ENTER}", "<ENTER>"), ("{TAB}", "<TAB>"), ("{CLEAR}", "<CLEAR>"),
   ("{PA1}", "<PA1>"), ("{PA2}", "<PA2>"), ("{PA3}", "<PA3>"),
   ("{RESET}", "<RESET>"),
   ("ENTER", "<ENTER>"), ("TAB", "<TAB>"), ("CLEAR", "<CLEAR>"),
   ("PA1", "<PA1>"), ("PA2", "<PA2>"), ("PA3", "<PA3>"), ("RESET", "<RESET>")]

/-- The substitution loop `for old, new in replacements.items(): command = command.replace(old, new)`. -/
def applyReplacements (command : String) : String :=
  replacements.foldl (fun acc pr => pyReplace acc pr.1 pr.2) command

/-- `ExtraTerminal.format_command`: apply every table substitution in
order, then append `" <ENTER>"` to the stripped string unless the
stripped result already ends in `"<ENTER>"`. -/
def format_command (command : String) : String :=
  let c := applyReplacements command
  if pyEndsWith (pyStrip c) "<ENTER>" then c
  else pyStrip c ++ " <ENTER>"


/-! ## Host and controller state -/

/--
The COM-side state visible to one `ExtraTerminal` method call.
`sessionConnected` is `session.Connected`; `xstatus k` is the value the
`k`-th read of `screen.OIA.XStatus` yields inside one polling call
(`none` models the read raising); `sendKeysRaises` models
`screen.SendKeys` raising `pythoncom.com_error`; `screenBuffer` is what
`screen.GetStringEx(0, 0, 32, 80, 120, 0, 0, 0)` returns.
-/
structure Host where
  sessionConnected : Bool
  xstatus : Nat → Option Int
  sendKeysRaises : Bool
  screenBuffer : String

/-- The controller's own python-side state: the `self.connected` field. -/
structure Controller where
  connected : Bool
deriving DecidableEq, Repr

/-- `ExtraTerminal.disconnect`: `if hasattr(self, 'connected') and self.connected:
self.connected = False` — net effect: the local flag becomes false; no
host call is made. -/
def disconnect (c : Controller) : Controller :=
  { c with connected := false }

/-- `ExtraTerminal.is_connected`: `return self.session.Connected` — reads
the host's flag, not the local `self.connected` field (the `Controller`
argument is unused, mirroring the source). -/
def is_connected (_c : Controller) (h : Host) : Bool :=
  h.sessionConnected

/-! ## Readiness Poller (`wait_for_ready`) -/

/--
The polling loop of `wait_for_ready`.  `fuel` is the number of loop
iterations the wall-clock budget admits (`10 * timeout`, one per 0.1 s
sleep); `i` counts completed iterations, so it is both the next poll
index and the number of sleeps performed so far.  Exhausted fuel is the
`while` guard failing: `raise TerminalBusyError("Terminal busy timeout",
{"timeout": timeout, "last_status": getattr(self.screen.OIA, 'XStatus', None)})`
— note the detail re-reads the status one more time.  A failing status
read raises `TerminalBusyError("Failed to check terminal status", ...)`
with the elapsed time.  The returned `Nat` is the number of 0.1 s sleeps
performed (the elapsed time in tenths of a second).
-/
def waitForReadyAux (xstatus : Nat → Option Int) (timeoutSecs : Nat) :
    Nat → Nat → Nat × Except TErr Bool
  | 0, i => (i, Except.error (TErr.busyTimeout timeoutSecs (xstatus i)))
  | fuel + 1, i =>
    match xstatus i with
    | none => (i, Except.error (TErr.busyCheckFailed i))
    | some v =>
      if v ≠ 5 then (i, Except.ok true)
      else waitForReadyAux xstatus timeoutSecs fuel (i + 1)

/-- `ExtraTerminal.wait_for_ready(timeout)`: poll `screen.OIA.XStatus`
every 0.1 s until it differs from the busy sentinel `5` or `timeout`
seconds elapse. -/
def wait_for_ready (xstatus : Nat → Option Int) (timeoutSecs : Nat) :
    Nat × Except TErr Bool :=
  waitForReadyAux xstatus timeoutSecs (10 * timeoutSecs) 0

/-! ## Key injection (`send_keys`, `send_command`) -/

/--
`ExtraTerminal.send_keys(keys)`.  The connectivity guard (outside the
`try`) raises `ConnectionError` when `is_connected()` is false; then
`screen.SendKeys(keys)` runs (a `pythoncom.com_error` from it is caught
and re-raised as `CommandError("Failed to send keys", {"keys": keys, ...})`);
then `wait_for_ready()` (default timeout 30) runs — an exception from it
is NOT a `com_error`, so it propagates unchanged.  The first component
lists the keystroke strings successfully injected into the host.
-/
def send_keys (c : Controller) (h : Host) (keys : String) :
    List String × Except TErr Unit :=
  if is_connected c h then
    if h.sendKeysRaises then ([], Except.error (TErr.commandKeys keys))
    else
      match (wait_for_ready h.xstatus 30).2 with
      | Except.ok true => ([keys], Except.ok ())
      | Except.ok false => ([keys], Except.error (TErr.command "Terminal not ready after sending keys"))
      | Except.error e => ([keys], Except.error e)
  else ([], Except.error (TErr.connection "Not connected to terminal"))

/-- `ExtraTerminal.send_command(command)`: format, inject via `send_keys`,
and return the formatted string. -/
def send_command (c : Controller) (h : Host) (command : String) :
    List String × Except TErr String :=
  match send_keys c h (format_command command) with
  | (inj, Except.ok _) => (inj, Except.ok (format_command command))
  | (inj, Except.error e) => (inj, Except.error e)

/-! ## Screen Reader (`read_screen`) -/

/-- `response = response[:2560]` — truncation (no padding) of the host
buffer to at most 32 * 80 characters. -/
def screenRaw (response : String) : String :=
  String.mk (response.data.take 2560)

/-- The row loop `for i in range(0, len(response), 80):
screen_text.append(response[i:i+80].rstrip())`, applied to the already
truncated response. -/
def screenRows (response : String) : List String :=
  (pyRangeStep response.length 80).map
    (fun i => pyRstrip (String.mk ((response.data.drop i).take 80)))

/-- The two result shapes of `read_screen`: a list of lines or the raw
string. -/
inductive ScreenResult where
  | rows (lines : List String)
  | raw (s : String)
deriving DecidableEq, Repr

/--
`ExtraTerminal.read_screen(strip_whitespace)`.  Everything — including
the initial `wait_for_ready()` call and the (unreachable) `raise
TerminalBusyError("Terminal not ready for reading")` — sits inside
`try: ... except Exception as e: raise CommandError(f"Read screen failed: {str(e)}")`,
so any busy error from the poller is re-wrapped into a `CommandError`.
-/
def read_screen (h : Host) (strip_whitespace : Bool) : Except TErr ScreenResult :=
  match (wait_for_ready h.xstatus 30).2 with
  | Except.error e => Except.error (TErr.commandWrap "Read screen failed: " e)
  | Except.ok false =>
    Except.error (TErr.commandWrap "Read screen failed: "
      (TErr.busyMsg "Terminal not ready for reading"))
  | Except.ok true =>
    let response := screenRaw h.screenBuffer
    if strip_whitespace then Except.ok (ScreenResult.rows (screenRows response))
    else Except.ok (ScreenResult.raw response)

/-! ## `wait_for_text` -/

/-- `for line in screen_text: if text in line` where `screen_text` is the
RAW string returned by `read_screen()` (its `strip_whitespace` parameter
defaults to `False`), so the iteration is over single characters. -/
def anyCharContains (response text : String) : Bool :=
  response.data.any (fun ch => isSubstring text.data [ch])

/--
The loop of `wait_for_text`.  `fuel` is the number of iterations the
wall-clock budget admits (one per `interval` sleep); `i` is the iteration
index; `counter` is `self.counter`, incremented whenever `OIA.XStatus != 0`
and compared against `self.timeout = 10000` as a secondary exit.  `reads i`
is what iteration `i`'s `self.read_screen()` call produces (the raw
string, or an exception — swallowed by `except Exception: pass`);
`xst i` is that iteration's `OIA.XStatus` read.
-/
def waitForTextLoop (reads : Nat → Except TErr String) (xst : Nat → Int)
    (text : String) : Nat → Nat → Nat → Bool
  | 0, _, _ => false
  | fuel + 1, i, counter =>
    match reads i with
    | Except.error _ => waitForTextLoop reads xst text fuel (i + 1) counter
    | Except.ok response =>
      if anyCharContains response text then true
      else if xst i ≠ 0 then
        if counter + 1 > 10000 then false
        else waitForTextLoop reads xst text fuel (i + 1) (counter + 1)
      else waitForTextLoop reads xst text fuel (i + 1) counter

/-- `ExtraTerminal.wait_for_text(text, timeout=30, interval=0.5)` with the
default interval: `2 * timeout` iterations fit in the budget. -/
def wait_for_text (reads : Nat → Except TErr String) (xst : Nat → Int)
    (text : String) (timeoutSecs : Nat) : Bool :=
  waitForTextLoop reads xst text (2 * timeoutSecs) 0 0

/-! ## Session Locator (the EXTRA branch of `__init__`) -/

/--
Session resolution in `ExtraTerminal.__init__` for the EXTRA backend,
over the host's session collection (1-based; each entry has a name and a
connected flag).  The whole block sits inside
`try: ... except pythoncom.com_error: raise ConnectionError("Failed to initialize ...")
except Exception as e: raise ConnectionError("Unexpected error", {"error": str(e)})`,
so both deliberately raised `SessionError`s are caught by the second
handler and re-raised wrapped inside a `ConnectionError`.  A numeric
identifier resolves by 1-based index (`Sessions(k)`; an out-of-range
index raises a `com_error`, first handler); a non-numeric one scans for
the first name match and otherwise raises
`SessionError("Session not found", {"name": ..., "available": [...]})` —
wrapped by the second handler.  On success, the result is the resolved
1-based session index.
-/
def initSession (sessions : List (String × Bool)) (session_name : String) :
    Except TErr Nat :=
  if sessions.length = 0 then
    Except.error (TErr.connectionWrap "Unexpected error" TErr.sessionEmpty)
  else
    match pyToIntOpt session_name with
    | some k =>
      if 1 ≤ k ∧ k ≤ (sessions.length : Int) then Except.ok k.toNat
      else Except.error (TErr.connection "Failed to initialize EXTRA.System")
    | none =>
      match sessions.findIdx? (fun p => p.1 = session_name) with
      | some i => Except.ok (i + 1)
      | none =>
        Except.error (TErr.connectionWrap "Unexpected error"
          (TErr.sessionNotFound session_name (sessions.map (fun p => p.1))))

deriving instance DecidableEq for Except


/-! ## Helper lemmas about the readiness poller -/

theorem waitAux_busy (xstatus : Nat → Option Int) (t : Nat) :
    ∀ (fuel i : Nat), (∀ j, j < fuel → xstatus (i + j) = some 5) →
      waitForReadyAux xstatus t fuel i =
        (i + fuel, Except.error (TErr.busyTimeout t (xstatus (i + fuel)))) := by
  intro fuel
  induction fuel with
  | zero => intro i _h; simp [waitForReadyAux]
  | succ n ih =>
    intro i h
    have h0 : xstatus i = some 5 := by simpa using h 0 (Nat.succ_pos n)
    have hrec := ih (i + 1) (fun j hj => by
      have hx := h (j + 1) (by omega)
      have harg : i + (j + 1) = i + 1 + j := by omega
      rwa [harg] at hx)
    have harith : i + 1 + n = i + (n + 1) := by omega
    simp only [waitForReadyAux, h0]
    rw [if_neg (by simp), hrec, harith]

theorem waitAux_ready (xstatus : Nat → Option Int) (t : Nat) :
    ∀ (k fuel i : Nat) (v : Int), k < fuel →
      (∀ j, j < k → xstatus (i + j) = some 5) →
      xstatus (i + k) = some v → v ≠ 5 →
      waitForReadyAux xstatus t fuel i = (i + k, Except.ok true) := by
  intro k
  induction k with
  | zero =>
    intro fuel i v hk h hv hne
    cases fuel with
    | zero => omega
    | succ m =>
      have hx : xstatus i = some v := by simpa using hv
      simp only [waitForReadyAux, hx]
      rw [if_pos hne]
      simp
  | succ n ih =>
    intro fuel i v hk h hv hne
    cases fuel with
    | zero => omega
    | succ m =>
      have h0 : xstatus i = some 5 := by simpa using h 0 (Nat.succ_pos n)
      have hrec := ih m (i + 1) v (by omega)
        (fun j hj => by
          have hx := h (j + 1) (by omega)
          have harg : i + (j + 1) = i + 1 + j := by omega
          rwa [harg] at hx)
        (by
          have harg : i + (n + 1) = i + 1 + n := by omega
          rwa [harg] at hv)
        hne
      have harith : i + 1 + n = i + (n + 1) := by omega
      simp only [waitForReadyAux, h0]
      rw [if_neg (by simp), hrec, harith]

theorem waitAux_ne_ok_false (xstatus : Nat → Option Int) (t : Nat) :
    ∀ (fuel i : Nat), (waitForReadyAux xstatus t fuel i).2 ≠ Except.ok false := by
  intro fuel
  induction fuel with
  | zero => intro i; simp [waitForReadyAux]
  | succ n ih =>
    intro i
    cases hx : xstatus i with
    | none => simp [waitForReadyAux, hx]
    | some v =>
      by_cases hv : v ≠ 5
      · simp [waitForReadyAux, hx, hv]
      · simp only [waitForReadyAux, hx]
        rw [if_neg hv]
        exact ih (i + 1)

theorem waitAux_error_isPollErr (xstatus : Nat → Option Int) (t : Nat) :
    ∀ (fuel i : Nat) (e : TErr),
      (waitForReadyAux xstatus t fuel i).2 = Except.error e → e.isPollErr = true := by
  intro fuel
  induction fuel with
  | zero =>
    intro i e he
    simp only [waitForReadyAux] at he
    have : TErr.busyTimeout t (xstatus i) = e := by
      exact (Except.error.injEq _ _).mp he
    rw [← this]
    rfl
  | succ n ih =>
    intro i e he
    cases hx : xstatus i with
    | none =>
      simp only [waitForReadyAux, hx] at he
      have h2 : TErr.busyCheckFailed i = e := (Except.error.injEq _ _).mp he
      rw [← h2]
      rfl
    | some v =>
      simp only [waitForReadyAux, hx] at he
      by_cases hv : v ≠ 5
      · rw [if_pos hv] at he
        simp at he
      · rw [if_neg hv] at he
        exact ih (i + 1) e he

theorem wait_ne_ok_false (xstatus : Nat → Option Int) (t : Nat) :
    (wait_for_ready xstatus t).2 ≠ Except.ok false :=
  waitAux_ne_ok_false xstatus t (10 * t) 0

theorem wait_error_isPollErr (xstatus : Nat → Option Int) (t : Nat) (e : TErr)
    (hw : (wait_for_ready xstatus t).2 = Except.error e) : e.isPollErr = true :=
  waitAux_error_isPollErr xstatus t (10 * t) 0 e hw

/-! ## Claim theorems -/

/-- C1: the claim says each substitution-table token rewrites to its escape
token verbatim and that `send_command("hello{TAB}")` sends and returns
exactly `"hello<TAB> <ENTER>"`.  The code disagrees: the bare-token pass
(`"TAB" -> "<TAB>"`) runs after the bracket pass and rewrites the `TAB`
inside the freshly produced `<TAB>`, so every bracket token is
double-escaped and `send_command("hello{TAB}")` sends and returns
`"hello<<TAB>> <ENTER>"`. -/
theorem C1_format_command_double_escapes :
    format_command "hello{TAB}" = "hello<<TAB>> <ENTER>" ∧
    format_command "hello{TAB}" ≠ "hello<TAB> <ENTER>" ∧
    send_command ⟨true⟩ (⟨true, fun _ => some 0, false, ""⟩ : Host) "hello{TAB}" =
      (["hello<<TAB>> <ENTER>"], Except.ok "hello<<TAB>> <ENTER>") :=
  ⟨by decide, by decide, by decide⟩

/-- C2: the claim says `format_command` leaves inputs whose trimmed form
already ends in `"<ENTER>"` unchanged (idempotence).  The code disagrees:
the bare `"ENTER" -> "<ENTER>"` substitution rewrites the trailing token
to `"<<ENTER>>"`, after which a fresh `" <ENTER>"` is appended, so
`format_command "test<ENTER>" = "test<<ENTER>> <ENTER>"` and
`format_command` is not idempotent even on its own outputs. -/
theorem C2_format_command_not_idempotent :
    pyEndsWith (pyStrip "test<ENTER>") "<ENTER>" = true ∧
    format_command "test<ENTER>" = "test<<ENTER>> <ENTER>" ∧
    format_command (format_command "test") ≠ format_command "test" :=
  ⟨by decide, by decide, by decide⟩

/-- C3: the claim says construction fails with `SessionError` (1002) on an
empty collection or an unmatched non-numeric name, with the name and the
available-session list in the detail mapping.  The code disagrees: both
`SessionError` raises sit inside `try: ... except Exception as e: raise
ConnectionError("Unexpected error", {"error": str(e)})`, so the
constructor actually raises `ConnectionError` (code 1001) wrapping the
session error; numeric lookup `"2"` does resolve to the second entry. -/
theorem C3_init_wraps_session_into_connection :
    initSession [("A", true), ("B", true)] "C" =
      Except.error (TErr.connectionWrap "Unexpected error"
        (TErr.sessionNotFound "C" ["A", "B"])) ∧
    (TErr.connectionWrap "Unexpected error"
        (TErr.sessionNotFound "C" ["A", "B"])).code = 1001 ∧
    initSession ([] : List (String × Bool)) "1" =
      Except.error (TErr.connectionWrap "Unexpected error" TErr.sessionEmpty) ∧
    (1001 : Nat) ≠ 1002 ∧
    initSession [("A", true), ("B", true)] "2" = Except.ok 2 :=
  ⟨by decide, by decide, by decide, by decide, by decide⟩

/-- C4: the claim says `read_screen` fails with `TerminalBusyError` (1003)
— not any other error kind — when the poller reports not-ready.  The code
disagrees: the `wait_for_ready()` call sits inside `read_screen`'s
`try: ... except Exception as e: raise CommandError(f"Read screen failed: {str(e)}")`,
so the busy error is re-wrapped and the caller sees `CommandError`
(code 1004). -/
theorem C4_read_screen_busy_becomes_command_error :
    read_screen (⟨true, fun _ => some 5, false, ""⟩ : Host) false =
      Except.error (TErr.commandWrap "Read screen failed: "
        (TErr.busyTimeout 30 (some 5))) ∧
    (TErr.commandWrap "Read screen failed: " (TErr.busyTimeout 30 (some 5))).code = 1004 ∧
    (1004 : Nat) ≠ 1003 :=
  ⟨by decide, by decide, by decide⟩

/-- C5 counterexample: with the host session connected, injection
succeeding and the status flag stuck at the busy sentinel, `send_keys`
fails with `TerminalBusyError` (code 1003) propagated out of
`wait_for_ready` — not with `CommandError` (code 1004) as the claim
states (the `except` clause of `send_keys` only catches
`pythoncom.com_error`). -/
theorem C5_counterexample_busy_not_command_error :
    (send_keys ⟨true⟩ (⟨true, fun _ => some 5, false, ""⟩ : Host) "x").2 =
      Except.error (TErr.busyTimeout 30 (some 5)) ∧
    (TErr.busyTimeout 30 (some 5)).code = 1003 ∧
    (1003 : Nat) ≠ 1004 :=
  ⟨by decide, by decide, by decide⟩

/-- C5 (amended): `send_keys` fails with `ConnectionError` (1001) when the
host reports the session not connected; otherwise, if `SendKeys` raises a
COM error it fails with `CommandError` (1004); otherwise it injects the
keystrokes and polls readiness, and if the terminal never leaves the busy
sentinel it fails with the poller's `TerminalBusyError` (1003), not
`CommandError`. -/
theorem C5_send_keys_spec (c : Controller) (h : Host) (keys : String) :
    (h.sessionConnected = false →
      send_keys c h keys = ([], Except.error (TErr.connection "Not connected to terminal"))) ∧
    (h.sessionConnected = true → h.sendKeysRaises = true →
      send_keys c h keys = ([], Except.error (TErr.commandKeys keys))) ∧
    (h.sessionConnected = true → h.sendKeysRaises = false →
      (∀ k, h.xstatus k = some 5) →
      send_keys c h keys = ([keys], Except.error (TErr.busyTimeout 30 (some 5)))) := by
  refine ⟨?_, ?_, ?_⟩
  · intro hc
    simp [send_keys, is_connected, hc]
  · intro hc hr
    simp [send_keys, is_connected, hc, hr]
  · intro hc hr hx
    have h1 := waitAux_busy h.xstatus 30 (10 * 30) 0 (fun j _ => hx (0 + j))
    have hw : (wait_for_ready h.xstatus 30).2 =
        Except.error (TErr.busyTimeout 30 (some 5)) := by
      rw [wait_for_ready, h1, hx (0 + 10 * 30)]
    simp [send_keys, is_connected, hc, hr, hw]

/-- C5 witness: the three branches of `C5_send_keys_spec` at concrete
states. -/
theorem C5_send_keys_spec_witness :
    send_keys ⟨true⟩ (⟨false, fun _ => some 0, false, ""⟩ : Host) "k" =
      ([], Except.error (TErr.connection "Not connected to terminal")) ∧
    send_keys ⟨true⟩ (⟨true, fun _ => some 5, true, ""⟩ : Host) "k" =
      ([], Except.error (TErr.commandKeys "k")) ∧
    send_keys ⟨true⟩ (⟨true, fun _ => some 5, false, ""⟩ : Host) "k" =
      (["k"], Except.error (TErr.busyTimeout 30 (some 5))) :=
  ⟨(C5_send_keys_spec _ _ _).1 rfl,
   (C5_send_keys_spec _ _ _).2.1 rfl rfl,
   (C5_send_keys_spec _ _ _).2.2 rfl rfl (fun _ => rfl)⟩

/-- C6: `wait_for_ready` returns true at the first poll whose status is
not the busy sentinel 5 (after one 0.1 s sleep per preceding busy poll,
hence within the timeout); if every poll inside the `10 * timeout`-tick
budget reads 5 it raises `TerminalBusyError` only after all `10 * timeout`
sleeps (at least `timeout` seconds) carrying the configured timeout and a
final fresh status read; and with `timeout = 0` it fails immediately,
with zero sleeps. -/
theorem C6_wait_for_ready_spec :
    (∀ (xstatus : Nat → Option Int) (t k : Nat) (v : Int),
      k < 10 * t → (∀ j, j < k → xstatus j = some 5) →
      xstatus k = some v → v ≠ 5 →
      wait_for_ready xstatus t = (k, Except.ok true)) ∧
    (∀ (xstatus : Nat → Option Int) (t : Nat),
      (∀ k, k < 10 * t → xstatus k = some 5) →
      wait_for_ready xstatus t =
        (10 * t, Except.error (TErr.busyTimeout t (xstatus (10 * t))))) ∧
    (∀ xstatus : Nat → Option Int,
      wait_for_ready xstatus 0 = (0, Except.error (TErr.busyTimeout 0 (xstatus 0)))) := by
  refine ⟨?_, ?_, ?_⟩
  · intro xstatus t k v hk h hv hne
    have h1 := waitAux_ready xstatus t k (10 * t) 0 v hk
      (fun j hj => by simpa using h j hj) (by simpa using hv) hne
    simpa [wait_for_ready] using h1
  · intro xstatus t h
    have h1 := waitAux_busy xstatus t (10 * t) 0 (fun j hj => by simpa using h j hj)
    simpa [wait_for_ready] using h1
  · intro xstatus
    simp [wait_for_ready, waitForReadyAux]

/-- C6 witness: a flag that clears at the third poll, a flag that never
clears over a 1-second budget, and the zero-timeout boundary. -/
theorem C6_wait_for_ready_spec_witness :
    wait_for_ready (fun k => some (if k < 3 then 5 else 0)) 1 = (3, Except.ok true) ∧
    wait_for_ready (fun _ => some 5) 1 = (10, Except.error (TErr.busyTimeout 1 (some 5))) ∧
    wait_for_ready (fun _ => some 5) 0 = (0, Except.error (TErr.busyTimeout 0 (some 5))) :=
  ⟨C6_wait_for_ready_spec.1 _ 1 3 0 (by decide) (fun j hj => by simp [hj])
      (by decide) (by decide),
   C6_wait_for_ready_spec.2.1 _ 1 (fun k _ => rfl),
   C6_wait_for_ready_spec.2.2 _⟩

/-- C7 counterexample: the claim says every host buffer is truncated or
padded to exactly 2560 characters (32 rows).  The code only truncates
(`response[:2560]`): a ready host returning the 2-character buffer
`"hi"` yields a raw result of length 2 and a single stripped row. -/
theorem C7_counterexample_short_buffer :
    read_screen (⟨true, fun _ => some 0, false, "hi"⟩ : Host) false =
      Except.ok (ScreenResult.raw "hi") ∧
    ("hi" : String).length ≠ 2560 ∧
    read_screen (⟨true, fun _ => some 0, false, "hi"⟩ : Host) true =
      Except.ok (ScreenResult.rows ["hi"]) ∧
    (["hi"] : List String).length ≠ 32 :=
  ⟨by decide, by decide, by decide, by decide⟩

/-- C7 (amended): `read_screen` truncates the host buffer to at most
32×80 = 2560 characters without padding (`length = min 2560 buf.length`);
when the buffer holds at least 2560 characters, `strip_whitespace=True`
yields exactly 32 rows, the i-th being the 80-column slice starting at
offset 80·i right-trimmed of trailing whitespace, in top-to-bottom
order, and `strip_whitespace=False` yields the raw 2560-character
truncation; shorter buffers produce a shorter raw string and
`ceil(length/80)` rows. -/
theorem C7_read_screen_geometry :
    (∀ buf : String, (screenRaw buf).length = min 2560 buf.length) ∧
    (∀ buf : String, 2560 ≤ buf.length →
      (screenRows (screenRaw buf)).length = 32 ∧
      screenRows (screenRaw buf) =
        (List.range 32).map
          (fun i => pyRstrip (String.mk ((buf.data.drop (i * 80)).take 80)))) ∧
    (∀ h : Host, h.xstatus 0 = some 0 →
      read_screen h false = Except.ok (ScreenResult.raw (screenRaw h.screenBuffer)) ∧
      read_screen h true = Except.ok (ScreenResult.rows (screenRows (screenRaw h.screenBuffer)))) := by
  have hlenRaw : ∀ buf : String, (screenRaw buf).length = min 2560 buf.length := by
    intro buf
    show (buf.data.take 2560).length = min 2560 buf.data.length
    exact List.length_take 2560 buf.data
  refine ⟨hlenRaw, ?_, ?_⟩
  · intro buf hb
    have hlen : (screenRaw buf).length = 2560 := by
      rw [hlenRaw buf]
      exact Nat.min_eq_left hb
    have hdata : (screenRaw buf).data = buf.data.take 2560 := rfl
    have heq : screenRows (screenRaw buf) =
        (List.range 32).map
          (fun i => pyRstrip (String.mk ((buf.data.drop (i * 80)).take 80))) := by
      rw [screenRows, hlen, hdata]
      have hrange : pyRangeStep 2560 80 = (List.range 32).map (fun i => i * 80) := by
        rw [pyRangeStep]
      rw [hrange, List.map_map]
      refine List.map_congr_left ?_
      intro i hi
      have hi32 : i < 32 := List.mem_range.mp hi
      simp only [Function.comp_apply]
      rw [List.drop_take, List.take_take, Nat.min_eq_left (by omega)]
    refine ⟨?_, heq⟩
    rw [heq]
    simp
  · intro h hx0
    have h1 := waitAux_ready h.xstatus 30 0 (10 * 30) 0 0 (by norm_num)
      (fun j hj => absurd hj (Nat.not_lt_zero j)) (by simpa using hx0) (by decide)
    have hw : (wait_for_ready h.xstatus 30).2 = Except.ok true := by
      rw [wait_for_ready, h1]
    exact ⟨by simp [read_screen, hw], by simp [read_screen, hw]⟩

/-- C7 witness: a 2560-character buffer yields exactly 32 rows, and a
ready host delivers the raw truncation. -/
theorem C7_read_screen_geometry_witness :
    2560 ≤ (String.mk (List.replicate 2560 'a')).length ∧
    (screenRows (screenRaw (String.mk (List.replicate 2560 'a')))).length = 32 ∧
    ((⟨true, fun _ => some 0, false, "ab"⟩ : Host).xstatus 0 = some 0) ∧
    read_screen (⟨true, fun _ => some 0, false, "ab"⟩ : Host) false =
      Except.ok (ScreenResult.raw (screenRaw "ab")) :=
  ⟨by
     show (2560 : Nat) ≤ (List.replicate 2560 'a').length
     simp,
   (C7_read_screen_geometry.2.1 _ (by
     show (2560 : Nat) ≤ (List.replicate 2560 'a').length
     simp)).1,
   rfl,
   (C7_read_screen_geometry.2.2 _ rfl).1⟩

/-- C8: the claim says `wait_for_text` checks substring containment of
`text` across all screen rows.  The code disagrees: it calls
`read_screen()` with its default `strip_whitespace=False`, receives the
raw string, and `for line in screen_text` then iterates over single
characters, so a text longer than one character never matches and the
call times out to `false` even when the text is on screen; a
one-character text still matches. -/
theorem C8_wait_for_text_iterates_characters :
    isSubstring "target text".data "target text found".data = true ∧
    wait_for_text (fun _ => Except.ok "target text found") (fun _ => 0) "target text" 1 = false ∧
    wait_for_text (fun _ => Except.ok "target text found") (fun _ => 0) "x" 1 = true :=
  ⟨by decide, by decide, by decide⟩

/-- C9: `wait_for_ready` never returns false — it either returns true or
raises — so the `if not self.wait_for_ready()` guards are unreachable:
`send_keys` can never raise `CommandError("Terminal not ready after
sending keys")` and `read_screen` can never produce the wrapped
`TerminalBusyError("Terminal not ready for reading")`. -/
theorem C9_wait_for_ready_total :
    (∀ (xstatus : Nat → Option Int) (t : Nat),
      (wait_for_ready xstatus t).2 ≠ Except.ok false) ∧
    (∀ (c : Controller) (h : Host) (keys : String),
      (send_keys c h keys).2 ≠
        Except.error (TErr.command "Terminal not ready after sending keys")) ∧
    (∀ (h : Host) (b : Bool),
      read_screen h b ≠
        Except.error (TErr.commandWrap "Read screen failed: "
          (TErr.busyMsg "Terminal not ready for reading"))) := by
  refine ⟨fun xstatus t => wait_ne_ok_false xstatus t, ?_, ?_⟩
  · intro c h keys
    cases hc : is_connected c h with
    | false => simp [send_keys, hc]
    | true =>
      cases hr : h.sendKeysRaises with
      | true => simp [send_keys, hc, hr]
      | false =>
        cases hw : (wait_for_ready h.xstatus 30).2 with
        | ok b =>
          cases b with
          | false => exact absurd hw (wait_ne_ok_false _ _)
          | true => simp [send_keys, hc, hr, hw]
        | error e =>
          have hp := wait_error_isPollErr _ _ _ hw
          have he2 : (send_keys c h keys).2 = Except.error e := by
            simp [send_keys, hc, hr, hw]
          rw [he2]
          intro heq
          have h3 : e = TErr.command "Terminal not ready after sending keys" :=
            (Except.error.injEq _ _).mp heq
          rw [h3] at hp
          exact absurd hp (by simp [TErr.isPollErr])
  · intro h b
    cases hw : (wait_for_ready h.xstatus 30).2 with
    | ok bb =>
      cases bb with
      | false => exact absurd hw (wait_ne_ok_false _ _)
      | true =>
        cases b with
        | false => simp [read_screen, hw]
        | true => simp [read_screen, hw]
    | error e =>
      have hp := wait_error_isPollErr _ _ _ hw
      have he2 : read_screen h b =
          Except.error (TErr.commandWrap "Read screen failed: " e) := by
        simp [read_screen, hw]
      rw [he2]
      intro heq
      have h3 : TErr.commandWrap "Read screen failed: " e =
          TErr.commandWrap "Read screen failed: "
            (TErr.busyMsg "Terminal not ready for reading") :=
        (Except.error.injEq _ _).mp heq
      have h4 : e = TErr.busyMsg "Terminal not ready for reading" := by
        injection h3 with _ h4
      rw [h4] at hp
      exact absurd hp (by simp [TErr.isPollErr])

/-- C9 witness: the three parts at concrete states. -/
theorem C9_wait_for_ready_total_witness :
    (wait_for_ready (fun _ => some 5) 2).2 ≠ Except.ok false ∧
    (send_keys ⟨false⟩ (⟨true, fun _ => some 0, false, ""⟩ : Host) "w").2 ≠
      Except.error (TErr.command "Terminal not ready after sending keys") ∧
    read_screen (⟨true, fun _ => some 5, false, ""⟩ : Host) true ≠
      Except.error (TErr.commandWrap "Read screen failed: "
        (TErr.busyMsg "Terminal not ready for reading")) :=
  ⟨C9_wait_for_ready_total.1 _ 2, C9_wait_for_ready_total.2.1 _ _ _,
   C9_wait_for_ready_total.2.2 _ _⟩

/-- C10: the connectivity check of `send_keys` reads the host's
`session.Connected` flag (`is_connected`), not the controller's local
`connected` field, and `disconnect()` clears only the local field: after
`disconnect()`, while the host still reports the session connected,
`send_keys` does not raise `ConnectionError` and proceeds to inject the
keystrokes. -/
theorem C10_send_keys_checks_host_flag (c : Controller) (h : Host) (keys : String)
    (hc : h.sessionConnected = true) :
    (disconnect c).connected = false ∧
    is_connected (disconnect c) h = true ∧
    (∀ msg, (send_keys (disconnect c) h keys).2 ≠ Except.error (TErr.connection msg)) ∧
    (h.sendKeysRaises = false → (send_keys (disconnect c) h keys).1 = [keys]) := by
  have hic : is_connected (disconnect c) h = true := hc
  refine ⟨rfl, hic, ?_, ?_⟩
  · intro msg
    cases hr : h.sendKeysRaises with
    | true => simp [send_keys, hic, hr]
    | false =>
      cases hw : (wait_for_ready h.xstatus 30).2 with
      | ok b =>
        cases b with
        | false => exact absurd hw (wait_ne_ok_false _ _)
        | true => simp [send_keys, hic, hr, hw]
      | error e =>
        have hp := wait_error_isPollErr _ _ _ hw
        have he2 : (send_keys (disconnect c) h keys).2 = Except.error e := by
          simp [send_keys, hic, hr, hw]
        rw [he2]
        intro heq
        have h3 : e = TErr.connection msg := (Except.error.injEq _ _).mp heq
        rw [h3] at hp
        exact absurd hp (by simp [TErr.isPollErr])
  · intro hr
    cases hw : (wait_for_ready h.xstatus 30).2 with
    | ok b =>
      cases b with
      | false => exact absurd hw (wait_ne_ok_false _ _)
      | true => simp [send_keys, hic, hr, hw]
    | error e => simp [send_keys, hic, hr, hw]

/-- C10 witness: after `disconnect`, a host that still reports the session
connected accepts the injection. -/
theorem C10_send_keys_checks_host_flag_witness :
    ((⟨true, fun _ => some 0, false, ""⟩ : Host).sessionConnected = true) ∧
    (send_keys (disconnect ⟨true⟩) (⟨true, fun _ => some 0, false, ""⟩ : Host) "w2").1 = ["w2"] :=
  ⟨rfl, (C10_send_keys_checks_host_flag ⟨true⟩ _ "w2" rfl).2.2.2 rfl⟩
